import Mathlib

/-
Verification of the EntNet dialog model (src/src/entnet/models/entnet.py).

The file shallowly embeds the computation graph built by `EntNetDialog`:
tensors become functions over `Fin`-indexed coordinates with values in the
real numbers, placeholders become explicit arguments, variables become
fields of a parameter record, and the session-level behaviour of
`batch_fit` and `predict` becomes an explicit state machine.

Components of the repository that the model file imports but whose sources
are not part of the repository snapshot (the prelu activation, the
DynamicMemoryCell, and get_sequence_length from model_utils) are modelled
from the specification, as marked in their doc comments.
-/

namespace EntNet

/-! ## Elementary tensor operations -/

/-- Rectified linear unit, `tf.nn.relu`. -/
def relu (x : ℝ) : ℝ := max x 0

/-- Modelled from the spec: the parametric activation of activations.py
(not in the snapshot), `relu(x) + alpha * (x - abs x) * 0.5`, with a
learnable slope `alpha` per innermost coordinate. -/
def prelu (alpha : ℝ) (x : ℝ) : ℝ := relu x + alpha * (x - |x|) * 0.5

/-- Elementwise prelu over a vector, with one slope per coordinate. -/
def preluVec {d : ℕ} (alpha : Fin d → ℝ) (x : Fin d → ℝ) : Fin d → ℝ :=
  fun j => prelu (alpha j) (x j)

/-- Logistic sigmoid, `tf.sigmoid`. -/
noncomputable def sigmoid (x : ℝ) : ℝ := 1 / (1 + Real.exp (-x))

/-- Softmax of a score vector, `tf.nn.softmax`. -/
noncomputable def softmax {n : ℕ} (z : Fin n → ℝ) : Fin n → ℝ :=
  fun i => Real.exp (z i) / ∑ j, Real.exp (z j)

/-- Maximum of a vector, `tf.reduce_max` over the last axis (0 for an
empty axis, which never arises in the graph). -/
noncomputable def reduceMax : {n : ℕ} → (Fin n → ℝ) → ℝ
  | 0, _ => 0
  | _ + 1, f => Finset.univ.sup' ⟨0, Finset.mem_univ 0⟩ f

/-- Dot product of two vectors. -/
def dotProd {d : ℕ} (x y : Fin d → ℝ) : ℝ := ∑ j, x j * y j

/-- Vector-matrix product `v · A` (row vector times matrix), as in
`tf.matmul(u, H)` for a single row `u`. -/
def vecMat {d e : ℕ} (v : Fin d → ℝ) (A : Fin d → Fin e → ℝ) : Fin e → ℝ :=
  fun j => ∑ i, v i * A i j

/-! ## Embedding tables and input encoding (entnet.py, _build_vars and
get_input_encoding) -/

/-- The 0/1 mask of `_build_vars`: entry `0 if i == 0 else 1` per
vocabulary row. -/
def embeddingMask {V : ℕ} (i : Fin V) : ℝ := if i.val = 0 then 0 else 1

/-- A masked embedding table: the learnable table multiplied rowwise by
`embeddingMask`, as in `input_embedding * input_embedding_mask`. -/
def maskedTable {V d : ℕ} (E : Fin V → Fin d → ℝ) : Fin V → Fin d → ℝ :=
  fun i j => E i j * embeddingMask i

/-- `tf.nn.embedding_lookup` of a table at a `[batch, numSent, sentLen]`
tensor of token indices. -/
def embedLookup {V d B N S : ℕ} (table : Fin V → Fin d → ℝ)
    (tokens : Fin B → Fin N → Fin S → Fin V) :
    Fin B → Fin N → Fin S → Fin d → ℝ :=
  fun b n s j => table (tokens b n s) j

/-- `get_input_encoding`: multiply the embedded tokens by the positional
mask and sum over the sentence-length axis (reduction index 2). -/
def encodeInput {d B N S : ℕ} (posMask : Fin S → ℝ)
    (emb : Fin B → Fin N → Fin S → Fin d → ℝ) :
    Fin B → Fin N → Fin d → ℝ :=
  fun b n j => ∑ s, emb b n s j * posMask s

/-- Modelled from the spec: `get_sequence_length` of model_utils (not in
the snapshot). A time step is used when the maximum absolute value over
the feature axis is positive; the per-example length is the number of used
steps. -/
noncomputable def get_sequence_length {d B N : ℕ}
    (encoded : Fin B → Fin N → Fin d → ℝ) : Fin B → ℕ :=
  fun b =>
    (Finset.univ.filter (fun n => reduceMax (fun j => |encoded b n j|) > 0)).card

/-- The number of non-padding sentences of one example of a story batch: a
sentence is padding when every token is the nil index 0. -/
def storyNonPadCount {V B M S : ℕ} (stories : Fin B → Fin M → Fin S → Fin V)
    (b : Fin B) : ℕ :=
  (Finset.univ.filter (fun m => ¬ ∀ s, (stories b m s).val = 0)).card

/-! ## Dynamic memory cell (modelled from the spec: dynamic_memory_cell.py
is not in the snapshot) -/

/-- The shared per-step parameters of the cell: three square matrices, a
bias vector, and the slope of its activation, all shared across blocks and
time steps. -/
structure CellParams (d : ℕ) where
  U : Fin d → Fin d → ℝ
  Vm : Fin d → Fin d → ℝ
  W : Fin d → Fin d → ℝ
  bias : Fin d → ℝ
  alpha : Fin d → ℝ

/-- Matrix-vector product `A · v`. -/
def matVec {d : ℕ} (A : Fin d → Fin d → ℝ) (v : Fin d → ℝ) : Fin d → ℝ :=
  fun i => ∑ j, A i j * v j

/-- Euclidean norm of a vector. -/
noncomputable def vecNorm {d : ℕ} (v : Fin d → ℝ) : ℝ :=
  Real.sqrt (∑ j, v j ^ 2)

/-- Modelled from the spec: one block update of the DynamicMemoryCell.
Gate is the sigmoid of the two dot products input with state and input
with key; the candidate is the activated affine combination; the gated
update is added to the previous state and the result is normalized to
unit norm, a zero vector staying zero. -/
noncomputable def cellBlockStep {d : ℕ} (cp : CellParams d)
    (key h x : Fin d → ℝ) : Fin d → ℝ :=
  let gate := sigmoid (dotProd x h + dotProd x key)
  let cand := preluVec cp.alpha
    (fun i => matVec cp.U h i + matVec cp.Vm key i + matVec cp.W x i + cp.bias i)
  let updated := fun i => h i + gate * cand i
  let nrm := vecNorm updated
  if nrm = 0 then updated else fun i => updated i / nrm

/-- Splitting the concatenated cell state `[numBlocks * d]` into blocks,
as `tf.split` by `num_blocks` along the state axis. -/
def splitState {K d : ℕ} (s : Fin (K * d) → ℝ) : Fin K → Fin d → ℝ :=
  fun k j => s ⟨k.val * d + j.val, by
    calc k.val * d + j.val < k.val * d + d := by omega
    _ = (k.val + 1) * d := by ring
    _ ≤ K * d := Nat.mul_le_mul_right d k.isLt⟩

/-- Joining per-block states back into the concatenated cell state. -/
def joinState {K d : ℕ} (f : Fin K → Fin d → ℝ) : Fin (K * d) → ℝ :=
  fun i =>
    have hd : 0 < d := by
      rcases Nat.eq_zero_or_pos d with h0 | h0
      · exact absurd i.isLt (by simp [h0])
      · exact h0
    f ⟨i.val / d, Nat.div_lt_of_lt_mul (Nat.mul_comm K d ▸ i.isLt)⟩
      ⟨i.val % d, Nat.mod_lt _ hd⟩

/-- Modelled from the spec: the full cell transition on the concatenated
state, updating every block with the shared parameters and its own key. -/
noncomputable def cellStep {K d : ℕ} (cp : CellParams d)
    (keys : Fin K → Fin d → ℝ) (s : Fin (K * d) → ℝ) (x : Fin d → ℝ) :
    Fin (K * d) → ℝ :=
  joinState (fun k => cellBlockStep cp (keys k) (splitState s k) x)

/-- Modelled from the spec: the variable-length recurrent execution of
`tf.nn.dynamic_rnn` for one example. `rnnStates step inputs len s0 t` is
the state after `t` time steps: a step whose index is below the declared
length applies the transition to the input at that step, and any later
step carries the previous state forward unchanged. -/
def rnnStates {σ ι : Type} (step : σ → ι → σ) (inputs : ℕ → ι)
    (len : ℕ) (s0 : σ) : ℕ → σ
  | 0 => s0
  | t + 1 =>
    let prev := rnnStates step inputs len s0 t
    if t < len then step prev (inputs t) else prev

/-! ## Output module (entnet.py, get_output) -/

/-- The raw attention scores of `get_output`: the sum over the embedding
axis of the blockwise state times the broadcast encoded query. -/
def attentionScores {B K d : ℕ} (ls : Fin B → Fin K → Fin d → ℝ)
    (encQ : Fin B → Fin 1 → Fin d → ℝ) : Fin B → Fin K → ℝ :=
  fun b k => ∑ j, ls b k j * encQ b 0 j

/-- The attention weights of `get_output`: softmax over the block axis of
the scores after subtracting the per-example maximum. -/
noncomputable def attentionWeights {B K d : ℕ} (ls : Fin B → Fin K → Fin d → ℝ)
    (encQ : Fin B → Fin 1 → Fin d → ℝ) : Fin B → Fin K → ℝ :=
  fun b => softmax
    (fun k => attentionScores ls encQ b k - reduceMax (attentionScores ls encQ b))

/-- `get_output` on the concatenated final state: split into blocks,
attend with the query, weight the blocks, project with `H`, activate, and
score against the per-candidate sums of output-embedded tokens. -/
noncomputable def get_output {B K d C L V : ℕ} (H : Fin d → Fin d → ℝ)
    (outAlpha : Fin d → ℝ) (outputMasked : Fin V → Fin d → ℝ)
    (candidates : Fin C → Fin L → Fin V)
    (last_state : Fin B → Fin (K * d) → ℝ)
    (encQ : Fin B → Fin 1 → Fin d → ℝ) : Fin B → Fin C → ℝ :=
  let ls := fun b => splitState (K := K) (last_state b)
  let attention := attentionWeights ls encQ
  let u := fun b j => ∑ k, ls b k j * attention b k
  let q := fun b j => encQ b 0 j
  let candidates_emb_sum := fun c j => ∑ l, outputMasked (candidates c l) j
  fun b c =>
    ∑ j, preluVec outAlpha (fun i => q b i + vecMat (u b) H i) j *
      candidates_emb_sum c j

/-- The logits as the specification phrases them: softmax of the raw
per-block dot-product scores, attended readout, then the activated
projection of the query plus the readout times `H`, matrix-multiplied by
the transpose of the matrix whose rows are the per-candidate sums of
output-embedded tokens. -/
noncomputable def specLogits {B K d C L V : ℕ} (H : Fin d → Fin d → ℝ)
    (outAlpha : Fin d → ℝ) (outputMasked : Fin V → Fin d → ℝ)
    (candidates : Fin C → Fin L → Fin V)
    (last_state : Fin B → Fin (K * d) → ℝ)
    (encQ : Fin B → Fin 1 → Fin d → ℝ) : Fin B → Fin C → ℝ :=
  fun b c =>
    let blocks := splitState (K := K) (last_state b)
    let weights := softmax (fun k => ∑ j, blocks k j * encQ b 0 j)
    let u := fun j => ∑ k, blocks k j * weights k
    let candSum := fun j => ∑ l, outputMasked (candidates c l) j
    ∑ j, prelu (outAlpha j) (encQ b 0 j + ∑ i, u i * H i j) * candSum j

/-- `tf.argmax` along the last axis: the index of a maximal entry, as a
natural number (0 on an empty axis, which never arises in the graph). -/
noncomputable def tfArgmax : {n : ℕ} → (Fin n → ℝ) → ℕ
  | 0, _ => 0
  | _ + 1, f =>
    (Finset.exists_max_image Finset.univ f ⟨0, Finset.mem_univ 0⟩).choose.val

/-- `tf.nn.sparse_softmax_cross_entropy_with_logits` for one example. -/
noncomputable def sparseCrossEntropy {C : ℕ} (logits : Fin C → ℝ)
    (label : Fin C) : ℝ :=
  Real.log (∑ c, Real.exp (logits c)) - logits label

/-- `get_loss`: the mean over the batch of the sparse softmax
cross-entropy between the logits and the answer labels. -/
noncomputable def get_loss {B C : ℕ} (logits : Fin B → Fin C → ℝ)
    (answers : Fin B → Fin C) : ℝ :=
  (∑ b, sparseCrossEntropy (logits b) (answers b)) / B

/-! ## The learnable parameters and the inference graph (entnet.py,
_build_vars and _inference) -/

/-- All learnable variables of the graph. The two positional masks are
distinct fields because `get_input_encoding` is entered under the two
scopes StoryEncoding and QueryEncoding (lines 132-133), so
`tf.get_variable` creates one positional-mask variable per scope. -/
structure Params (V S d K : ℕ) where
  inputEmbedding : Fin V → Fin d → ℝ
  outputEmbedding : Fin V → Fin d → ℝ
  storyPosMask : Fin S → ℝ
  queryPosMask : Fin S → ℝ
  keys : Fin K → Fin d → ℝ
  H : Fin d → Fin d → ℝ
  outAlpha : Fin d → ℝ
  cell : CellParams d

/-- The encoded story of `_inference`: masked input embedding lookup, then
the position-weighted sum under the StoryEncoding scope. -/
def encodedStory {V S d K B M : ℕ} (p : Params V S d K)
    (stories : Fin B → Fin M → Fin S → Fin V) : Fin B → Fin M → Fin d → ℝ :=
  encodeInput p.storyPosMask (embedLookup (maskedTable p.inputEmbedding) stories)

/-- The encoded query of `_inference`: masked input embedding lookup, then
the position-weighted sum under the QueryEncoding scope. -/
def encodedQuery {V S d K B : ℕ} (p : Params V S d K)
    (queries : Fin B → Fin 1 → Fin S → Fin V) : Fin B → Fin 1 → Fin d → ℝ :=
  encodeInput p.queryPosMask (embedLookup (maskedTable p.inputEmbedding) queries)

/-- The per-example sequence length that `_inference` passes to the story
recurrence (line 141): `get_sequence_length` applied to the encoded query. -/
noncomputable def inferenceSeqLen {V S d K B : ℕ} (p : Params V S d K)
    (queries : Fin B → Fin 1 → Fin S → Fin V) : Fin B → ℕ :=
  get_sequence_length (encodedQuery p queries)

/-- The recurrence states of one example of `_inference`: the dynamic rnn
driven by the cell over the encoded story, from the zero initial state,
masked by the sequence length computed from the encoded query. -/
noncomputable def storyStates {V S d K B M : ℕ} (p : Params V S d K)
    (stories : Fin B → Fin M → Fin S → Fin V)
    (queries : Fin B → Fin 1 → Fin S → Fin V) (b : Fin B) :
    ℕ → Fin (K * d) → ℝ :=
  rnnStates (cellStep p.cell p.keys)
    (fun t => if h : t < M then (fun j => encodedStory p stories b ⟨t, h⟩ j)
      else fun _ => 0)
    (inferenceSeqLen p queries b)
    (fun _ => 0)

/-- The final recurrence state of `_inference`, after all story steps. -/
noncomputable def lastState {V S d K B M : ℕ} (p : Params V S d K)
    (stories : Fin B → Fin M → Fin S → Fin V)
    (queries : Fin B → Fin 1 → Fin S → Fin V) : Fin B → Fin (K * d) → ℝ :=
  fun b => storyStates p stories queries b M

/-- `_inference`: the full graph from token inputs to output logits. -/
noncomputable def inference {V S d K B M C L : ℕ}
    (candidates : Fin C → Fin L → Fin V) (p : Params V S d K)
    (stories : Fin B → Fin M → Fin S → Fin V)
    (queries : Fin B → Fin 1 → Fin S → Fin V) : Fin B → Fin C → ℝ :=
  get_output p.H p.outAlpha (maskedTable p.outputEmbedding) candidates
    (lastState p stories queries) (encodedQuery p queries)

/-! ## Session-level behaviour (entnet.py, batch_fit and predict)

The graph is built once, in the constructor, with the recurrence initial
state shaped by the construction-time batch size (line 147); here that
size is the parameter `B` of the run operations. A feed whose batch size
differs from `B` fails the runtime shape check of the built graph. -/

/-- An execution error raised by the session run. -/
inductive SessError where
  | shapeMismatch (expected got : ℕ) : SessError
deriving DecidableEq

/-- The mutable per-instance state outside the graph: the variable values,
the global step, the summary records written so far as pairs of the step
identifier passed to the writer and the summary value, and the
`_batch_size` attribute reassigned by `batch_fit` and `predict`. -/
structure ModelState (V S d K : ℕ) where
  params : Params V S d K
  globalStep : ℕ
  summaryLog : List (ℕ × ℝ)
  batchSizeField : ℕ

/-- `batch_fit`: reassign the batch-size attribute, expand the queries
with the singleton sentence axis, and run loss, training and summary ops
in one session call. The summary is appended under the literal step
identifier 6024 (line 241) and the loss computed for the batch is
returned. The optimizer update of the external library is the function
argument `optStep`. -/
noncomputable def batchFit {V S d K C L : ℕ} (B M : ℕ)
    (optStep : Params V S d K → Params V S d K)
    (candidates : Fin C → Fin L → Fin V) (st : ModelState V S d K) (n : ℕ)
    (stories : Fin n → Fin M → Fin S → Fin V)
    (queries : Fin n → Fin S → Fin V) (answers : Fin n → Fin C) :
    Except SessError ℝ × ModelState V S d K :=
  let st1 := { st with batchSizeField := n }
  if h : n = B then
    let stories' : Fin B → Fin M → Fin S → Fin V :=
      fun b => stories (Fin.cast h.symm b)
    let queries' : Fin B → Fin 1 → Fin S → Fin V :=
      fun b _ => queries (Fin.cast h.symm b)
    let answers' : Fin B → Fin C := fun b => answers (Fin.cast h.symm b)
    let loss := get_loss (inference candidates st.params stories' queries') answers'
    (Except.ok loss,
      { st1 with
        params := optStep st.params
        globalStep := st.globalStep + 1
        summaryLog := st1.summaryLog ++ [(6024, loss)] })
  else
    (Except.error (SessError.shapeMismatch B n), st1)

/-- `predict`: reassign the batch-size attribute, expand the queries, and
run only the argmax of the logits; no variable, step counter or summary
record is touched. -/
noncomputable def predictRun {V S d K C L : ℕ} (B M : ℕ)
    (candidates : Fin C → Fin L → Fin V) (st : ModelState V S d K) (n : ℕ)
    (stories : Fin n → Fin M → Fin S → Fin V)
    (queries : Fin n → Fin S → Fin V) :
    Except SessError (Fin n → ℕ) × ModelState V S d K :=
  let st1 := { st with batchSizeField := n }
  if h : n = B then
    let stories' : Fin B → Fin M → Fin S → Fin V :=
      fun b => stories (Fin.cast h.symm b)
    let queries' : Fin B → Fin 1 → Fin S → Fin V :=
      fun b _ => queries (Fin.cast h.symm b)
    let logits := inference candidates st.params stories' queries'
    (Except.ok (fun b => tfArgmax (logits (Fin.cast h b))), st1)
  else
    (Except.error (SessError.shapeMismatch B n), st1)

/-! ## Placeholder shapes (entnet.py, _build_inputs) -/

/-- The declared shape of the stories placeholder (line 104): both the
batch axis and the sentence-count axis are left unconstrained (`None`),
only the last axis is pinned to the sentence size. -/
def storiesPlaceholder (S : ℕ) : List (Option ℕ) := [none, none, some S]

/-- The declared shape of the queries placeholder (line 105). -/
def queriesPlaceholder (S : ℕ) : List (Option ℕ) := [none, some 1, some S]

/-- The declared shape of the answers placeholder (line 106). -/
def answersPlaceholder : List (Option ℕ) := [none]

/-- Whether concrete dimensions conform to a declared placeholder shape:
same rank, and every pinned axis matches. -/
def conformsTo (shape : List (Option ℕ)) (dims : List ℕ) : Bool :=
  dims.length = shape.length &&
    (List.zip shape dims).all fun p =>
      match p.1 with
      | none => true
      | some k => p.2 = k

/-! ## Default session argument (entnet.py, line 23)

The constructor signature carries the default `session=tf.Session()`.
Python evaluates a default-argument expression once, when the enclosing
class statement is executed, so every construction that omits the session
receives that same object. Object identity is modelled by an allocation
counter. -/

/-- A session object, identified by its allocation number. -/
structure TFSession where
  sessionId : ℕ
deriving DecidableEq

/-- The allocator of fresh sessions. -/
structure SessionAllocator where
  next : ℕ
deriving DecidableEq

/-- `tf.Session()`: allocate the next fresh session object. -/
def newSession (a : SessionAllocator) : TFSession × SessionAllocator :=
  (⟨a.next⟩, ⟨a.next + 1⟩)

/-- The single evaluation of the default expression `tf.Session()` at
class-definition time, from the initial allocator. -/
def classDefault : TFSession × SessionAllocator := newSession ⟨0⟩

/-- The session object bound to the default of the constructor. -/
def defaultSession : TFSession := classDefault.1

/-- The session a construction ends up with: the explicitly passed one
when present; otherwise the already-evaluated default, with no new
allocation at construction time. -/
def constructSession (arg : Option TFSession) (a : SessionAllocator) :
    TFSession × SessionAllocator :=
  match arg with
  | some s => (s, a)
  | none => (defaultSession, a)

/-! ## Variable scopes of the positional masks (entnet.py, lines 132-133
and 164-167)

`tf.get_variable` identifies a variable by its full scope path, so the
two `get_input_encoding` calls, entered under the scopes StoryEncoding
and QueryEncoding inside the model scope, create two variables. -/

/-- The full path of the positional-mask variable created while encoding
the story. -/
def storyPosMaskPath (modelName : String) : List String :=
  [modelName, "StoryEncoding", "positional_mask"]

/-- The full path of the positional-mask variable created while encoding
the query. -/
def queryPosMaskPath (modelName : String) : List String :=
  [modelName, "QueryEncoding", "positional_mask"]

/-- The declared shape of each positional-mask variable (line 167). -/
def posMaskShape (S : ℕ) : List ℕ := [S, 1]

/-! ## Helper lemmas -/

/-- The masked table vanishes on the nil row, whatever the learnable
table holds. -/
theorem maskedTable_nil_row {V d : ℕ} (E : Fin V → Fin d → ℝ) (hV : 0 < V)
    (j : Fin d) : maskedTable E ⟨0, hV⟩ j = 0 := by
  simp [maskedTable, embeddingMask]

/-- Softmax sums to one on a nonempty axis. -/
theorem softmax_sum_eq_one {n : ℕ} (hn : 0 < n) (z : Fin n → ℝ) :
    ∑ i, softmax z i = 1 := by
  have : Nonempty (Fin n) := Fin.pos_iff_nonempty.mp hn
  have hS : 0 < ∑ j, Real.exp (z j) :=
    Finset.sum_pos (fun j _ => Real.exp_pos (z j)) Finset.univ_nonempty
  simp only [softmax]
  rw [← Finset.sum_div]
  exact div_self hS.ne'

/-- Softmax is invariant under subtracting a constant from every score. -/
theorem softmax_shift {n : ℕ} (z : Fin n → ℝ) (c : ℝ) :
    softmax (fun i => z i - c) = softmax z := by
  funext i
  simp only [softmax, Real.exp_sub]
  rw [← Finset.sum_div]
  exact div_div_div_cancel_right₀ (Real.exp_pos c).ne' _ _

/-- The attention weights of `get_output` coincide with the softmax of the
raw scores: the subtracted maximum is only a constant shift. -/
theorem attentionWeights_eq_softmax {B K d : ℕ}
    (ls : Fin B → Fin K → Fin d → ℝ) (encQ : Fin B → Fin 1 → Fin d → ℝ)
    (b : Fin B) :
    attentionWeights ls encQ b = softmax (attentionScores ls encQ b) := by
  simp only [attentionWeights]
  exact softmax_shift (attentionScores ls encQ b) (reduceMax (attentionScores ls encQ b))

/-- A recurrence step at or beyond the declared length carries the state
forward unchanged. -/
theorem rnnStates_frozen {σ ι : Type} (step : σ → ι → σ) (inputs : ℕ → ι)
    (len : ℕ) (s0 : σ) (t : ℕ) (ht : len ≤ t) :
    rnnStates step inputs len s0 (t + 1) = rnnStates step inputs len s0 t := by
  simp only [rnnStates]
  rw [if_neg (Nat.not_lt.mpr ht)]

/-- The argmax along a nonempty axis lies below the axis length. -/
theorem tfArgmax_lt {n : ℕ} (hn : 0 < n) (f : Fin n → ℝ) : tfArgmax f < n := by
  match n, hn, f with
  | m + 1, _, f =>
    exact (Finset.exists_max_image Finset.univ f ⟨0, Finset.mem_univ 0⟩).choose.isLt

/-- `get_output` computes exactly the logits described by the
specification formula. -/
theorem get_output_eq_specLogits {B K d C L V : ℕ} (H : Fin d → Fin d → ℝ)
    (outAlpha : Fin d → ℝ) (outputMasked : Fin V → Fin d → ℝ)
    (candidates : Fin C → Fin L → Fin V)
    (last_state : Fin B → Fin (K * d) → ℝ)
    (encQ : Fin B → Fin 1 → Fin d → ℝ) :
    get_output H outAlpha outputMasked candidates last_state encQ =
      specLogits H outAlpha outputMasked candidates last_state encQ := by
  funext b c
  simp only [get_output, specLogits, preluVec, vecMat,
    attentionWeights_eq_softmax, attentionScores]
  rfl

/-! ## Concrete instances used by witnesses and counterexamples -/

/-- Concrete cell parameters with every entry one. -/
def exCell : CellParams 1 :=
  ⟨fun _ _ => 1, fun _ _ => 1, fun _ _ => 1, fun _ => 1, fun _ => 1⟩

/-- Concrete parameter values with every learnable entry one, for a model
with vocabulary 2, sentence size 1, embedding size 1 and one block. -/
def exParams : Params 2 1 1 1 :=
  ⟨fun _ _ => 1, fun _ _ => 1, fun _ => 1, fun _ => 1,
   fun _ _ => 1, fun _ _ => 1, fun _ => 1, exCell⟩

/-- A one-example story batch of three sentences, every token the
non-padding index 1. -/
def exStories : Fin 1 → Fin 3 → Fin 1 → Fin 2 := fun _ _ _ => 1

/-- The matching one-example query batch with the singleton sentence axis,
every token the non-padding index 1. -/
def exQueries : Fin 1 → Fin 1 → Fin 1 → Fin 2 := fun _ _ _ => 1

/-- The matching flat query batch, as fed to `batch_fit` and `predict`. -/
def exQueriesFlat : Fin 1 → Fin 1 → Fin 2 := fun _ _ => 1

/-- A single one-token candidate. -/
def exCand : Fin 1 → Fin 1 → Fin 2 := fun _ _ => 1

/-- Concrete answer labels. -/
def exAnswers : Fin 1 → Fin 1 := fun _ => 0

/-- A concrete model state holding `exParams`. -/
def exState : ModelState 2 1 1 1 := ⟨exParams, 0, [], 0⟩

/-- A four-example story batch. -/
def exStories4 : Fin 4 → Fin 1 → Fin 1 → Fin 2 := fun _ _ _ => 1

/-- The matching four-example query batch. -/
def exQueries4 : Fin 4 → Fin 1 → Fin 1 → Fin 2 := fun _ _ _ => 1

/-- Ten one-token candidates. -/
def exCand10 : Fin 10 → Fin 1 → Fin 2 := fun _ _ => 1

/-- A two-example story batch, fed against a graph built for one example. -/
def exStories2 : Fin 2 → Fin 3 → Fin 1 → Fin 2 := fun _ _ _ => 1

/-- The matching two-example flat query batch. -/
def exQueriesFlat2 : Fin 2 → Fin 1 → Fin 2 := fun _ _ => 1

/-- The matching two-example answers. -/
def exAnswers2 : Fin 2 → Fin 1 := fun _ => 0

/-- A concrete blockwise state for the attention witness. -/
def exLs : Fin 1 → Fin 1 → Fin 1 → ℝ := fun _ _ _ => 0

/-- A concrete encoded query for the attention witness. -/
def exEncQ : Fin 1 → Fin 1 → Fin 1 → ℝ := fun _ _ _ => 0

/-- The maximum over a singleton axis is the unique entry. -/
theorem reduceMax_fin_one (f : Fin 1 → ℝ) : reduceMax f = f 0 := by
  show Finset.univ.sup' ⟨0, Finset.mem_univ 0⟩ f = f 0
  refine le_antisymm (Finset.sup'_le _ f fun i _ => ?_) (Finset.le_sup' f (Finset.mem_univ 0))
  rw [Fin.eq_zero i]

/-- The concrete encoded query is one in every coordinate. -/
theorem exEncodedQuery (b n j : Fin 1) :
    encodedQuery exParams exQueries b n j = 1 := by
  simp [encodedQuery, encodeInput, embedLookup, maskedTable, embeddingMask,
    exParams, exQueries]

/-- The sequence length `_inference` computes on the concrete batch is
one: the single query sentence is non-padding. -/
theorem exSeqLenEq : inferenceSeqLen exParams exQueries 0 = 1 := by
  have h : ∀ n : Fin 1,
      reduceMax (fun j => |encodedQuery exParams exQueries 0 n j|) > 0 := by
    intro n
    rw [reduceMax_fin_one]
    simp only [exEncodedQuery]
    norm_num
  simp only [inferenceSeqLen, get_sequence_length]
  rw [Finset.filter_true_of_mem (fun n _ => h n)]
  simp

/-! ## Claims -/

/-- C1 counterexample: on a batch whose single example has three
non-padding story sentences and a non-padding query, the length passed to
the story recurrence is 1, not 3: it is computed from the encoded query,
not from the story. -/
theorem c1_counterexample :
    inferenceSeqLen exParams exQueries 0 ≠ storyNonPadCount exStories 0 := by
  rw [exSeqLenEq]
  have h3 : storyNonPadCount exStories 0 = 3 := by decide
  omega

/-- C1 (amended): the per-example sequence length passed to the story
recurrence in `_inference` is `get_sequence_length` of the encoded query,
so it is at most 1 (the query has a single sentence), and recurrence steps
at or beyond that count leave the example state unchanged. -/
theorem c1_seqlen_from_query {V S d K B M : ℕ} (p : Params V S d K)
    (stories : Fin B → Fin M → Fin S → Fin V)
    (queries : Fin B → Fin 1 → Fin S → Fin V) (b : Fin B) (t : ℕ)
    (ht : inferenceSeqLen p queries b ≤ t) :
    inferenceSeqLen p queries b = get_sequence_length (encodedQuery p queries) b ∧
    inferenceSeqLen p queries b ≤ 1 ∧
    storyStates p stories queries b (t + 1) = storyStates p stories queries b t := by
  refine ⟨rfl, ?_, ?_⟩
  · calc inferenceSeqLen p queries b
        ≤ (Finset.univ : Finset (Fin 1)).card := Finset.card_filter_le _ _
      _ = 1 := by simp
  · exact rnnStates_frozen _ _ _ _ t ht

/-- C1 witness: the amended statement at the concrete batch, with the
frozen step taken at index 1, right beyond the computed length. -/
theorem c1_witness :
    inferenceSeqLen exParams exQueries 0 =
      get_sequence_length (encodedQuery exParams exQueries) 0 ∧
    inferenceSeqLen exParams exQueries 0 ≤ 1 ∧
    storyStates exParams exStories exQueries 0 2 =
      storyStates exParams exStories exQueries 0 1 :=
  c1_seqlen_from_query exParams exStories exQueries 0 1 (le_of_eq exSeqLenEq)

/-- C2: the nil row (token index 0) of both masked embedding tables is
identically zero for every value of the learnable variables, at any
reachable state and again after one more `batch_fit` call, for any
vocabulary size of at least one. -/
theorem c2_nil_embedding_rows {V S d K C L : ℕ} (B M : ℕ) (hV : 0 < V)
    (optStep : Params V S d K → Params V S d K)
    (candidates : Fin C → Fin L → Fin V) (st : ModelState V S d K) (n : ℕ)
    (stories : Fin n → Fin M → Fin S → Fin V)
    (queries : Fin n → Fin S → Fin V) (answers : Fin n → Fin C) (j : Fin d) :
    maskedTable st.params.inputEmbedding ⟨0, hV⟩ j = 0 ∧
    maskedTable st.params.outputEmbedding ⟨0, hV⟩ j = 0 ∧
    maskedTable (batchFit B M optStep candidates st n stories queries
      answers).2.params.inputEmbedding ⟨0, hV⟩ j = 0 ∧
    maskedTable (batchFit B M optStep candidates st n stories queries
      answers).2.params.outputEmbedding ⟨0, hV⟩ j = 0 :=
  ⟨maskedTable_nil_row _ hV j, maskedTable_nil_row _ hV j,
   maskedTable_nil_row _ hV j, maskedTable_nil_row _ hV j⟩

/-- C2 witness: the nil rows at the concrete state and after one concrete
training call. -/
theorem c2_witness :
    maskedTable exState.params.inputEmbedding ⟨0, Nat.succ_pos 1⟩ 0 = 0 ∧
    maskedTable exState.params.outputEmbedding ⟨0, Nat.succ_pos 1⟩ 0 = 0 ∧
    maskedTable (batchFit 1 3 id exCand exState 1 exStories exQueriesFlat
      exAnswers).2.params.inputEmbedding ⟨0, Nat.succ_pos 1⟩ 0 = 0 ∧
    maskedTable (batchFit 1 3 id exCand exState 1 exStories exQueriesFlat
      exAnswers).2.params.outputEmbedding ⟨0, Nat.succ_pos 1⟩ 0 = 0 :=
  c2_nil_embedding_rows 1 3 (Nat.succ_pos 1) id exCand exState 1 exStories
    exQueriesFlat exAnswers 0

/-- C3: for every example, the attention weights of `get_output` sum to
one over the block axis, and subtracting the per-example maximum before
the softmax changes nothing: the weights equal the softmax of the raw
scores. -/
theorem c3_attention_normalized {B K d : ℕ} (hK : 0 < K)
    (ls : Fin B → Fin K → Fin d → ℝ) (encQ : Fin B → Fin 1 → Fin d → ℝ)
    (b : Fin B) :
    (∑ k, attentionWeights ls encQ b k = 1) ∧
    attentionWeights ls encQ b = softmax (attentionScores ls encQ b) := by
  constructor
  · rw [attentionWeights_eq_softmax]
    exact softmax_sum_eq_one hK _
  · exact attentionWeights_eq_softmax ls encQ b

/-- C3 witness: the attention normalization at a concrete one-block
state. -/
theorem c3_witness :
    (∑ k, attentionWeights exLs exEncQ 0 k = 1) ∧
    attentionWeights exLs exEncQ 0 = softmax (attentionScores exLs exEncQ 0) :=
  c3_attention_normalized (Nat.succ_pos 0) exLs exEncQ 0

/-- C4: the inference logits equal the specification formula, the
activated projection times the transpose of the per-candidate sums of
output-embedded tokens, with one row per example and one column per
candidate, and the prediction of every example is an index below the
number of candidates. -/
theorem c4_logits_and_predict {V S d K B M C L : ℕ} (hC : 0 < C)
    (candidates : Fin C → Fin L → Fin V) (p : Params V S d K)
    (stories : Fin B → Fin M → Fin S → Fin V)
    (queries : Fin B → Fin 1 → Fin S → Fin V) (b : Fin B) :
    inference candidates p stories queries =
      specLogits p.H p.outAlpha (maskedTable p.outputEmbedding) candidates
        (lastState p stories queries) (encodedQuery p queries) ∧
    tfArgmax (inference candidates p stories queries b) < C :=
  ⟨get_output_eq_specLogits _ _ _ _ _ _, tfArgmax_lt hC _⟩

/-- C4 witness: the logits formula and the prediction bound at a concrete
batch of four examples scored against ten candidates. -/
theorem c4_witness :
    inference exCand10 exParams exStories4 exQueries4 =
      specLogits exParams.H exParams.outAlpha (maskedTable exParams.outputEmbedding)
        exCand10 (lastState exParams exStories4 exQueries4)
        (encodedQuery exParams exQueries4) ∧
    tfArgmax (inference exCand10 exParams exStories4 exQueries4 0) < 10 :=
  c4_logits_and_predict (Nat.succ_pos 9) exCand10 exParams exStories4 exQueries4 0

/-- C5: a `batch_fit` call on a conforming batch returns the scalar loss
computed for that batch and appends exactly one summary record, under the
literal step identifier 6024, whatever the current state is: the
identifier never advances. -/
theorem c5_batch_fit_logs_6024 {V S d K C L : ℕ} (B M : ℕ)
    (optStep : Params V S d K → Params V S d K)
    (candidates : Fin C → Fin L → Fin V) (st : ModelState V S d K)
    (stories : Fin B → Fin M → Fin S → Fin V)
    (queries : Fin B → Fin S → Fin V) (answers : Fin B → Fin C) :
    (batchFit B M optStep candidates st B stories queries answers).1 =
      Except.ok (get_loss
        (inference candidates st.params stories (fun b _ => queries b)) answers) ∧
    (batchFit B M optStep candidates st B stories queries answers).2.summaryLog =
      st.summaryLog ++ [(6024, get_loss
        (inference candidates st.params stories (fun b _ => queries b)) answers)] := by
  simp only [batchFit, dite_true]
  exact ⟨rfl, rfl⟩

/-- C6: `predict` leaves every learnable parameter, the step counter and
the summary log untouched, and a second call with the same stories and
queries returns the same result as the first. -/
theorem c6_predict_idempotent {V S d K C L : ℕ} (B M : ℕ)
    (candidates : Fin C → Fin L → Fin V) (st : ModelState V S d K) (n : ℕ)
    (stories : Fin n → Fin M → Fin S → Fin V)
    (queries : Fin n → Fin S → Fin V) :
    (predictRun B M candidates
        (predictRun B M candidates st n stories queries).2 n stories queries).1 =
      (predictRun B M candidates st n stories queries).1 ∧
    (predictRun B M candidates st n stories queries).2.params = st.params ∧
    (predictRun B M candidates st n stories queries).2.globalStep = st.globalStep ∧
    (predictRun B M candidates st n stories queries).2.summaryLog = st.summaryLog := by
  by_cases h : n = B
  · subst h
    simp only [predictRun, dite_true]
    refine ⟨?_, ?_, ?_, ?_⟩ <;> first | rfl | trivial
  · simp only [predictRun, dif_neg h]
    refine ⟨?_, ?_, ?_, ?_⟩ <;> first | rfl | trivial

/-- C7 counterexample: a story feed with 7 sentences per example conforms
to the stories placeholder of a model whose memory size is 3: the
sentence-count axis of the placeholder is unconstrained. -/
theorem c7_counterexample :
    conformsTo (storiesPlaceholder 5) [2, 7, 5] = true ∧ (7 : ℕ) ≠ 3 :=
  ⟨by decide, by decide⟩

/-- C7 (amended): the stories placeholder built by `_build_inputs` is
`[None, None, sentence_size]`: a dimension list conforms to it exactly
when it has rank three and its last entry is the sentence size, with the
batch and sentence-count axes unconstrained. -/
theorem c7_placeholder_unconstrained (S : ℕ) (dims : List ℕ) :
    conformsTo (storiesPlaceholder S) dims = true ↔ ∃ b m, dims = [b, m, S] := by
  rcases dims with _ | ⟨a, _ | ⟨b, _ | ⟨c, _ | ⟨e, rest⟩⟩⟩⟩ <;>
    simp [conformsTo, storiesPlaceholder]

/-- C8 counterexample: two models constructed in sequence, both without
an explicit session argument, end up with the same session object. -/
theorem c8_counterexample :
    (constructSession none classDefault.2).1 =
      (constructSession none (constructSession none classDefault.2).2).1 := rfl

/-- C8 (amended): the default of the session option is the one session
object created when the class definition was evaluated; every
construction omitting the option receives that same object and allocates
no fresh session, while an explicitly supplied session is used as
passed. -/
theorem c8_default_session_shared (a a' : SessionAllocator) (s : TFSession) :
    (constructSession none a).1 = (constructSession none a').1 ∧
    (constructSession none a).1 = defaultSession ∧
    (constructSession none a).2 = a ∧
    (constructSession (some s) a).1 = s :=
  ⟨rfl, rfl, rfl, rfl⟩

/-- C9 counterexample: the positional-mask variable created while
encoding the story and the one created while encoding the query have
different full scope paths, so they are two distinct variables, not one
shared parameter. -/
theorem c9_counterexample :
    storyPosMaskPath "EntNet" ≠ queryPosMaskPath "EntNet" := by
  decide

/-- C9 (amended): for any model name, the story encoding and the query
encoding each create their own positional-mask variable, under the
scopes StoryEncoding and QueryEncoding respectively, each of shape
`[sentence_size, 1]`; the two paths never coincide. -/
theorem c9_two_positional_masks (name : String) (S : ℕ) :
    storyPosMaskPath name ≠ queryPosMaskPath name ∧ posMaskShape S = [S, 1] := by
  refine ⟨fun h => ?_, rfl⟩
  simp [storyPosMaskPath, queryPosMaskPath] at h

/-- C10: the recurrence initial state is built once with the
construction-time batch size, so a `batch_fit` or `predict` call whose
feed holds a different number of examples fails the runtime shape check;
the call still reassigns the batch-size attribute, and even a state whose
attribute already equals the fed size fails, because the attribute does
not change the built graph. -/
theorem c10_batch_size_frozen {V S d K C L : ℕ} (B M : ℕ)
    (optStep : Params V S d K → Params V S d K)
    (candidates : Fin C → Fin L → Fin V) (st : ModelState V S d K) (n : ℕ)
    (hn : n ≠ B) (stories : Fin n → Fin M → Fin S → Fin V)
    (queries : Fin n → Fin S → Fin V) (answers : Fin n → Fin C) :
    (batchFit B M optStep candidates st n stories queries answers).1 =
      Except.error (SessError.shapeMismatch B n) ∧
    (batchFit B M optStep candidates st n stories queries answers).2 =
      { st with batchSizeField := n } ∧
    (predictRun B M candidates { st with batchSizeField := n } n stories
      queries).1 = Except.error (SessError.shapeMismatch B n) := by
  refine ⟨?_, ?_, ?_⟩ <;>
    simp only [batchFit, predictRun] <;> rw [dif_neg hn]

/-- C10 witness: feeding two examples to a graph built for one fails both
entry points with the shape mismatch, even after the batch-size attribute
holds 2. -/
theorem c10_witness :
    (batchFit 1 3 id exCand exState 2 exStories2 exQueriesFlat2 exAnswers2).1 =
      Except.error (SessError.shapeMismatch 1 2) ∧
    (batchFit 1 3 id exCand exState 2 exStories2 exQueriesFlat2 exAnswers2).2 =
      { exState with batchSizeField := 2 } ∧
    (predictRun 1 3 exCand { exState with batchSizeField := 2 } 2 exStories2
      exQueriesFlat2).1 = Except.error (SessError.shapeMismatch 1 2) :=
  c10_batch_size_frozen 1 3 id exCand exState 2 (by decide) exStories2
    exQueriesFlat2 exAnswers2

end EntNet
